import Mathlib

/-
  Verification of the remote-synchronization and ledger-consistency layer of the
  ENFERMERIA repository (src/despachador8.py and src/enfermera15.py).

  The Python code is shallowly embedded: network effects (connect attempts,
  sftp.put, sftp.get, integrity checks) are driven by explicit oracles, and the
  observable side effects (sleeps, file writes, remote deletions) are recorded
  in explicit event traces, so every theorem below is about the control flow of
  the source functions as written.
-/

/- ==========================================================================
   Transport layer: SSHManager.get_connection
   (src/despachador8.py lines 52-76, src/enfermera15.py lines 53-91)
   ========================================================================== -/

/-- Outcome of one underlying ssh.connect call: success, an authentication
exception (paramiko.AuthenticationException), or any other exception, with
its message. -/
inductive AttemptRes
| ok
| authFail (msg : String)
| otherFail (msg : String)
deriving DecidableEq

/-- What a get_connection call returns to its caller, together with how many
connect attempts it made.  pyNone models the Python for-loop falling through
without returning (unreachable for MAX_RETRIES greater than 0, but part of the
function as written: Python would return None). -/
inductive ConnOutcome
| connected (attemptsUsed : Nat)
| authError (cause : String) (attemptsUsed : Nat)
| connError (lastCause : String) (attemptsUsed : Nat)
| pyNone
deriving DecidableEq

def MAX_RETRIES : Nat := 3

def RETRY_DELAY : Nat := 5

def AttemptRes.isFail : AttemptRes → Bool
| AttemptRes.ok => false
| AttemptRes.authFail _ => true
| AttemptRes.otherFail _ => true

def AttemptRes.msg : AttemptRes → String
| AttemptRes.ok => ""
| AttemptRes.authFail m => m
| AttemptRes.otherFail m => m

namespace Despachador

/-- Loop body of despachador8.py get_connection (lines 58-76).  The single
except-Exception clause treats an authentication failure exactly like any
other fault: sleep RETRY_DELAY and retry while attempt < MAX_RETRIES - 1,
otherwise surface the last cause and return None (modelled as connError).
Returns the outcome and the list of sleeps performed. -/
def connGo (o : Nat → AttemptRes) : Nat → Nat → ConnOutcome × List Nat
| _, 0 => (ConnOutcome.pyNone, [])
| attempt, fuel + 1 =>
  match o attempt with
  | AttemptRes.ok => (ConnOutcome.connected (attempt + 1), [])
  | AttemptRes.authFail m =>
    if attempt < MAX_RETRIES - 1 then
      let r := connGo o (attempt + 1) fuel
      (r.1, RETRY_DELAY :: r.2)
    else (ConnOutcome.connError m (attempt + 1), [])
  | AttemptRes.otherFail m =>
    if attempt < MAX_RETRIES - 1 then
      let r := connGo o (attempt + 1) fuel
      (r.1, RETRY_DELAY :: r.2)
    else (ConnOutcome.connError m (attempt + 1), [])

/-- SSHManager.get_connection of despachador8.py: for attempt in
range(MAX_RETRIES), driven by the oracle o giving the result of the
(attempt+1)-th ssh.connect call. -/
def get_connection (o : Nat → AttemptRes) : ConnOutcome × List Nat :=
  connGo o 0 MAX_RETRIES

end Despachador

namespace Enfermera

/-- Loop body of enfermera15.py get_connection (lines 59-91).  This variant
catches paramiko.AuthenticationException separately and returns immediately
(modelled as authError); SSHException and generic exceptions are retried with
RETRY_DELAY sleeps up to the bound. -/
def connGo (o : Nat → AttemptRes) : Nat → Nat → ConnOutcome × List Nat
| _, 0 => (ConnOutcome.pyNone, [])
| attempt, fuel + 1 =>
  match o attempt with
  | AttemptRes.ok => (ConnOutcome.connected (attempt + 1), [])
  | AttemptRes.authFail m => (ConnOutcome.authError m (attempt + 1), [])
  | AttemptRes.otherFail m =>
    if attempt < MAX_RETRIES - 1 then
      let r := connGo o (attempt + 1) fuel
      (r.1, RETRY_DELAY :: r.2)
    else (ConnOutcome.connError m (attempt + 1), [])

/-- SSHManager.get_connection of enfermera15.py. -/
def get_connection (o : Nat → AttemptRes) : ConnOutcome × List Nat :=
  connGo o 0 MAX_RETRIES

end Enfermera

/-- Claim C1, counterexample: in despachador8.py, SSHManager.get_connection
catches every exception with a single generic except clause, so a connection
that fails authentication on every attempt is retried like any transport
fault: three attempts are made with two RETRY_DELAY sleeps between them, and
the failure surfaces as the generic connection error carrying the last cause,
not as an immediate AuthError after exactly one attempt. -/
theorem C1_counterexample :
    Despachador.get_connection (fun _ => AttemptRes.authFail "auth rejected") =
      (ConnOutcome.connError "auth rejected" 3, [RETRY_DELAY, RETRY_DELAY]) := by
  decide

/-- Claim C1 (amended): in enfermera15.py, get_connection fails immediately
with AuthError after exactly 1 attempt on an authentication failure, and
retries any other fault up to MAX_RETRIES attempts separated by RETRY_DELAY
before failing with ConnectError carrying the last cause; in despachador8.py,
every fault, authentication failure included, is retried up to MAX_RETRIES
attempts separated by RETRY_DELAY and then fails with the generic connection
error carrying the last cause. -/
theorem C1_amended_retry_behavior :
    (∀ (o : Nat → AttemptRes) (m : String), o 0 = AttemptRes.authFail m →
      Enfermera.get_connection o = (ConnOutcome.authError m 1, [])) ∧
    (∀ (o : Nat → AttemptRes) (m0 m1 m2 : String),
      o 0 = AttemptRes.otherFail m0 → o 1 = AttemptRes.otherFail m1 →
      o 2 = AttemptRes.otherFail m2 →
      Enfermera.get_connection o =
        (ConnOutcome.connError m2 3, [RETRY_DELAY, RETRY_DELAY])) ∧
    (∀ (o : Nat → AttemptRes),
      (o 0).isFail = true → (o 1).isFail = true → (o 2).isFail = true →
      Despachador.get_connection o =
        (ConnOutcome.connError (o 2).msg 3, [RETRY_DELAY, RETRY_DELAY])) := by
  refine ⟨?_, ?_, ?_⟩
  · intro o m h0
    simp [Enfermera.get_connection, MAX_RETRIES, Enfermera.connGo, h0]
  · intro o m0 m1 m2 h0 h1 h2
    simp [Enfermera.get_connection, MAX_RETRIES, Enfermera.connGo, h0, h1, h2,
      RETRY_DELAY]
  · intro o h0 h1 h2
    cases e0 : o 0 with
    | ok => rw [e0] at h0; simp [AttemptRes.isFail] at h0
    | authFail m0 =>
      cases e1 : o 1 with
      | ok => rw [e1] at h1; simp [AttemptRes.isFail] at h1
      | authFail m1 =>
        cases e2 : o 2 with
        | ok => rw [e2] at h2; simp [AttemptRes.isFail] at h2
        | authFail m2 =>
          simp [Despachador.get_connection, MAX_RETRIES, Despachador.connGo,
            e0, e1, e2, AttemptRes.msg, RETRY_DELAY]
        | otherFail m2 =>
          simp [Despachador.get_connection, MAX_RETRIES, Despachador.connGo,
            e0, e1, e2, AttemptRes.msg, RETRY_DELAY]
      | otherFail m1 =>
        cases e2 : o 2 with
        | ok => rw [e2] at h2; simp [AttemptRes.isFail] at h2
        | authFail m2 =>
          simp [Despachador.get_connection, MAX_RETRIES, Despachador.connGo,
            e0, e1, e2, AttemptRes.msg, RETRY_DELAY]
        | otherFail m2 =>
          simp [Despachador.get_connection, MAX_RETRIES, Despachador.connGo,
            e0, e1, e2, AttemptRes.msg, RETRY_DELAY]
    | otherFail m0 =>
      cases e1 : o 1 with
      | ok => rw [e1] at h1; simp [AttemptRes.isFail] at h1
      | authFail m1 =>
        cases e2 : o 2 with
        | ok => rw [e2] at h2; simp [AttemptRes.isFail] at h2
        | authFail m2 =>
          simp [Despachador.get_connection, MAX_RETRIES, Despachador.connGo,
            e0, e1, e2, AttemptRes.msg, RETRY_DELAY]
        | otherFail m2 =>
          simp [Despachador.get_connection, MAX_RETRIES, Despachador.connGo,
            e0, e1, e2, AttemptRes.msg, RETRY_DELAY]
      | otherFail m1 =>
        cases e2 : o 2 with
        | ok => rw [e2] at h2; simp [AttemptRes.isFail] at h2
        | authFail m2 =>
          simp [Despachador.get_connection, MAX_RETRIES, Despachador.connGo,
            e0, e1, e2, AttemptRes.msg, RETRY_DELAY]
        | otherFail m2 =>
          simp [Despachador.get_connection, MAX_RETRIES, Despachador.connGo,
            e0, e1, e2, AttemptRes.msg, RETRY_DELAY]

/-- Claim C1 amended theorem, witness at concrete oracles. -/
theorem C1_amended_retry_behavior_witness :
    Enfermera.get_connection (fun _ => AttemptRes.authFail "bad password") =
      (ConnOutcome.authError "bad password" 1, []) ∧
    Despachador.get_connection (fun _ => AttemptRes.otherFail "timeout") =
      (ConnOutcome.connError "timeout" 3, [RETRY_DELAY, RETRY_DELAY]) :=
  ⟨C1_amended_retry_behavior.1 _ _ rfl,
   C1_amended_retry_behavior.2.2 (fun _ => AttemptRes.otherFail "timeout")
     rfl rfl rfl⟩

/- ==========================================================================
   SSHManager.upload_remote_file (src/despachador8.py lines 133-167)
   and verify_file_integrity (lines 78-87)
   ========================================================================== -/

/-- Observable events of one upload_remote_file run: each sftp.put call (by
loop attempt index), each time.sleep(RETRY_DELAY), each ssh.close() from the
finally block, and a remote deletion (sftp.remove of the remote path) - the
last one never occurs in this function, and the constructor exists so the
claimed cleanup can be stated and refuted. -/
inductive UpEvent
| putCall (attempt : Nat)
| sleepRetry
| closeConn
| removeRemote
deriving DecidableEq

/-- Oracle world for upload_remote_file: whether the local file exists,
whether get_connection succeeds at loop attempt i, whether sftp.put at
attempt i completes without raising, and what verify_file_integrity returns
at attempt i (the size comparison of despachador8.py lines 78-87). -/
structure UploadEnv where
  localExists : Bool
  connOk : Nat → Bool
  putOk : Nat → Bool
  integrityOk : Nat → Bool

/-- Loop of upload_remote_file (lines 141-167).  Per iteration: reconnect
(return False when get_connection yields None); sftp.put (an exception goes
to the except clause, which returns False only when attempt equals
MAX_RETRIES - 1 and otherwise retries with no sleep); on put success check
integrity: success returns True; failure sleeps RETRY_DELAY and retries while
attempt < MAX_RETRIES - 1, and on the last attempt raises, which the except
clause turns into a False return.  The finally block closes the connection on
every path that opened one. -/
def uploadGo (env : UploadEnv) : Nat → Nat → Bool × List UpEvent
| _, 0 => (false, [])
| attempt, fuel + 1 =>
  if env.connOk attempt = false then (false, [])
  else if env.putOk attempt = false then
    if attempt = MAX_RETRIES - 1 then
      (false, [UpEvent.putCall attempt, UpEvent.closeConn])
    else
      let r := uploadGo env (attempt + 1) fuel
      (r.1, [UpEvent.putCall attempt, UpEvent.closeConn] ++ r.2)
  else if env.integrityOk attempt then
    (true, [UpEvent.putCall attempt, UpEvent.closeConn])
  else if attempt < MAX_RETRIES - 1 then
    let r := uploadGo env (attempt + 1) fuel
    (r.1, [UpEvent.putCall attempt, UpEvent.sleepRetry, UpEvent.closeConn] ++ r.2)
  else
    (false, [UpEvent.putCall attempt, UpEvent.closeConn])

/-- SSHManager.upload_remote_file: the os.path.exists precondition check of
lines 136-139 runs before the retry loop; a missing local file returns False
with no connection opened and no transfer attempted. -/
def upload_remote_file (env : UploadEnv) : Bool × List UpEvent :=
  if env.localExists = false then (false, [])
  else uploadGo env 0 MAX_RETRIES

/-- No branch of the upload loop ever emits a remote deletion. -/
theorem uploadGo_no_remove (env : UploadEnv) :
    ∀ fuel attempt, UpEvent.removeRemote ∉ (uploadGo env attempt fuel).2 := by
  intro fuel
  induction fuel with
  | zero => intro attempt; simp [uploadGo]
  | succ n ih =>
    intro attempt
    simp only [uploadGo]
    by_cases hc : env.connOk attempt = false
    · simp [hc]
    · simp only [hc, if_false]
      by_cases hp : env.putOk attempt = false
      · by_cases ha : attempt = MAX_RETRIES - 1
        · subst ha; simp [hp]
        · simp [hp, ha, ih (attempt + 1)]
      · simp only [hp, if_false]
        by_cases hi : env.integrityOk attempt
        · simp [hi]
        · by_cases hl : attempt < MAX_RETRIES - 1
          · simp [hi, hl, ih (attempt + 1)]
          · simp [hi, hl]

/-- Claim C2, counterexample: a local file that exists, a transport that
connects and transfers on every attempt, and a remote side whose reported
size never matches.  upload_remote_file retries the put three times with two
RETRY_DELAY sleeps and then fails, but at no point does it delete the corrupt
remote artifact: the event trace contains no remote deletion (there is no
sftp.remove call anywhere in the function). -/
theorem C2_counterexample :
    upload_remote_file
      { localExists := true, connOk := fun _ => true,
        putOk := fun _ => true, integrityOk := fun _ => false } =
      (false,
        [UpEvent.putCall 0, UpEvent.sleepRetry, UpEvent.closeConn,
         UpEvent.putCall 1, UpEvent.sleepRetry, UpEvent.closeConn,
         UpEvent.putCall 2, UpEvent.closeConn]) ∧
    UpEvent.removeRemote ∉
      (upload_remote_file
        { localExists := true, connOk := fun _ => true,
          putOk := fun _ => true, integrityOk := fun _ => false }).2 := by
  constructor
  · decide
  · decide

/-- Claim C2 (amended): an upload whose local path does not exist fails
before any transfer (no put, no connection); an upload whose remote reported
size differs from the local size on every attempt exhausts the retry budget
(three put attempts, RETRY_DELAY sleeps between integrity retries) and fails,
but the corrupt remote artifact is never deleted - upload_remote_file
performs no remote deletion on any path. -/
theorem C2_amended_upload_behavior :
    (∀ env : UploadEnv, env.localExists = false →
      upload_remote_file env = (false, [])) ∧
    (∀ env : UploadEnv, UpEvent.removeRemote ∉ (upload_remote_file env).2) ∧
    (∀ env : UploadEnv, env.localExists = true →
      (∀ i, env.connOk i = true) → (∀ i, env.putOk i = true) →
      (∀ i, env.integrityOk i = false) →
      upload_remote_file env =
        (false,
          [UpEvent.putCall 0, UpEvent.sleepRetry, UpEvent.closeConn,
           UpEvent.putCall 1, UpEvent.sleepRetry, UpEvent.closeConn,
           UpEvent.putCall 2, UpEvent.closeConn])) := by
  refine ⟨?_, ?_, ?_⟩
  · intro env h
    simp [upload_remote_file, h]
  · intro env
    by_cases h : env.localExists = false
    · simp [upload_remote_file, h]
    · simp only [upload_remote_file, h, if_false]
      exact uploadGo_no_remove env MAX_RETRIES 0
  · intro env hl hc hp hi
    simp [upload_remote_file, hl, MAX_RETRIES, uploadGo,
      hc 0, hc 1, hc 2, hp 0, hp 1, hp 2, hi 0, hi 1, hi 2]

/-- Claim C2 amended theorem, witness at a concrete environment. -/
theorem C2_amended_upload_behavior_witness :
    upload_remote_file
      { localExists := false, connOk := fun _ => true,
        putOk := fun _ => true, integrityOk := fun _ => true } = (false, []) :=
  C2_amended_upload_behavior.1 _ rfl

/- ==========================================================================
   Ledger representation and SSHManager.download_remote_file
   (src/despachador8.py lines 89-131), plus enfermera15.py download_file
   (lines 93-135)
   ========================================================================== -/

/-- One row of the signos.csv ledger with the canonical column set of
despachador8.py (lines 103-107 and 234-238); every cell is the CSV string. -/
structure Row where
  timestamp : String
  id_paciente : String
  nombre_paciente : String
  presion_arterial : String
  temperatura : String
  oximetria : String
  estado : String
deriving DecidableEq

/-- Content of a CSV file on disk as pandas sees it: absent; present but
zero-byte (pd.read_csv raises EmptyDataError); a parsed table of rows under
the canonical header (rows may be empty); or malformed content (pd.read_csv
raises ParserError). -/
inductive CsvFile
| missing
| zeroByte
| rows (rs : List Row)
| malformed
deriving DecidableEq

/-- The pair of ledger artifacts the synchronizer reconciles. -/
structure Store where
  localFile : CsvFile
  remoteFile : CsvFile
deriving DecidableEq

/-- Transport oracle for one download_remote_file call: per loop attempt,
whether get_connection succeeds, whether sftp.get completes without raising,
and what verify_file_integrity returns. -/
structure DlNet where
  connOk : Nat → Bool
  getOk : Nat → Bool
  integrityOk : Nat → Bool

/-- Observable events of a download_remote_file run. -/
inductive DlEvent
| statRemote (attempt : Nat)
| createLocalCanonical
| getFile (attempt : Nat)
| sleepRetry
| closeConn
deriving DecidableEq

/-- Oracle in which every transport operation succeeds. -/
def netAll : DlNet :=
  { connOk := fun _ => true, getOk := fun _ => true, integrityOk := fun _ => true }

/-- Oracle in which get_connection never succeeds. -/
def netDown : DlNet :=
  { connOk := fun _ => false, getOk := fun _ => true, integrityOk := fun _ => true }

/-- Loop of download_remote_file (despachador8.py lines 92-131).  Per
iteration: reconnect (None returns False); sftp.stat on the remote path - a
FileNotFoundError is caught inside and handled by writing a fresh
empty ledger with the canonical columns to the LOCAL path and returning True
(lines 101-110), with no check whether a local ledger already exists; a
successful sftp.get copies the remote bytes to the local path; an integrity
success returns True; an integrity failure sleeps and retries while
attempt < MAX_RETRIES - 1 and on the last attempt raises, which the generic
except clause turns into a False return; an sftp.get exception retries with
no sleep and returns False on the last attempt.  Result: the returned
boolean, the last content written to the local path (none when nothing was
written), and the event trace. -/
def dlGo (net : DlNet) (remote : CsvFile) :
    Nat → Nat → Bool × Option CsvFile × List DlEvent
| _, 0 => (false, none, [])
| attempt, fuel + 1 =>
  if net.connOk attempt = false then (false, none, [])
  else if remote = CsvFile.missing then
    (true, some (CsvFile.rows []),
      [DlEvent.statRemote attempt, DlEvent.createLocalCanonical, DlEvent.closeConn])
  else if net.getOk attempt = false then
    if attempt = MAX_RETRIES - 1 then
      (false, none,
        [DlEvent.statRemote attempt, DlEvent.getFile attempt, DlEvent.closeConn])
    else
      let r := dlGo net remote (attempt + 1) fuel
      (r.1, r.2.1,
        [DlEvent.statRemote attempt, DlEvent.getFile attempt, DlEvent.closeConn] ++ r.2.2)
  else if net.integrityOk attempt then
    (true, some remote,
      [DlEvent.statRemote attempt, DlEvent.getFile attempt, DlEvent.closeConn])
  else if attempt < MAX_RETRIES - 1 then
    let r := dlGo net remote (attempt + 1) fuel
    (r.1, some (r.2.1.getD remote),
      [DlEvent.statRemote attempt, DlEvent.getFile attempt, DlEvent.sleepRetry,
        DlEvent.closeConn] ++ r.2.2)
  else
    (false, some remote,
      [DlEvent.statRemote attempt, DlEvent.getFile attempt, DlEvent.closeConn])

/-- SSHManager.download_remote_file of despachador8.py, applied to the
current remote content. -/
def download_remote_file (net : DlNet) (remote : CsvFile) :
    Bool × Option CsvFile × List DlEvent :=
  dlGo net remote 0 MAX_RETRIES

/-- download_remote_file acting on the two-artifact store: the local file
keeps its old content only when the function never wrote to the local path. -/
def applyDownload (net : DlNet) (st : Store) : Bool × Store × List DlEvent :=
  let r := download_remote_file net st.remoteFile
  (r.1, { st with localFile := r.2.1.getD st.localFile }, r.2.2)

namespace Enfermera

/-- download_file of enfermera15.py (lines 93-135): a single attempt, no
retry loop and no integrity check.  A connection failure returns False; a
missing remote path returns False through the FileNotFoundError handler
(lines 108-111); a successful sftp.get returns True; a raised sftp.get
returns False.  The second component is the content written to the local
path, if any. -/
def download_file (connOk : Bool) (remote : CsvFile) (getOk : Bool) :
    Bool × Option CsvFile :=
  if connOk = false then (false, none)
  else match remote with
  | CsvFile.missing => (false, none)
  | content => if getOk then (true, some content) else (false, none)

end Enfermera

/-- Claim C3, counterexample: with the remote ledger absent and an existing
local ledger holding one row, despachador8.py download_remote_file
unconditionally overwrites the local ledger with a fresh empty
canonical-schema file and returns True - the very value a successful download
returns - so the missing-remote case is not a distinguishable outcome and the
fresh ledger is initialized even though a local ledger already exists. -/
theorem C3_counterexample :
    applyDownload netAll
      { localFile := CsvFile.rows
          [{ timestamp := "2024-01-01 10:00", id_paciente := "5512345678",
             nombre_paciente := "Ana", presion_arterial := "120/80",
             temperatura := "36.5", oximetria := "97", estado := "A" }],
        remoteFile := CsvFile.missing } =
      (true,
        { localFile := CsvFile.rows [], remoteFile := CsvFile.missing },
        [DlEvent.statRemote 0, DlEvent.createLocalCanonical, DlEvent.closeConn]) ∧
    (applyDownload netAll
      { localFile := CsvFile.rows [], remoteFile := CsvFile.rows [] }).1 = true := by
  constructor
  · decide
  · decide

/-- Claim C3 (amended): a missing remote path is not surfaced as a
distinguishable NotFound outcome by either program.  In despachador8.py,
download_remote_file writes a fresh empty canonical-schema ledger over the
local path regardless of whether a local ledger already exists and returns
True, the same value as a successful download; in enfermera15.py,
download_file returns False for a missing remote path, the same value as a
transport failure.  The initialize-only-if-no-local-ledger bootstrap exists
only in the transport-failure branch of sync_with_remote, not in the
missing-remote branch. -/
theorem C3_amended_notfound_behavior :
    (∀ localPre : CsvFile,
      applyDownload netAll { localFile := localPre, remoteFile := CsvFile.missing } =
        (true,
          { localFile := CsvFile.rows [], remoteFile := CsvFile.missing },
          [DlEvent.statRemote 0, DlEvent.createLocalCanonical, DlEvent.closeConn])) ∧
    (Enfermera.download_file true CsvFile.missing true = (false, none) ∧
      Enfermera.download_file false (CsvFile.rows []) true = (false, none)) := by
  constructor
  · intro localPre
    simp [applyDownload, download_remote_file, MAX_RETRIES, dlGo, netAll]
  · constructor
    · decide
    · decide

/-- Claim C3 amended theorem, witness at a concrete local pre-state. -/
theorem C3_amended_notfound_behavior_witness :
    applyDownload netAll { localFile := CsvFile.zeroByte, remoteFile := CsvFile.missing } =
      (true,
        { localFile := CsvFile.rows [], remoteFile := CsvFile.missing },
        [DlEvent.statRemote 0, DlEvent.createLocalCanonical, DlEvent.closeConn]) :=
  C3_amended_notfound_behavior.1 CsvFile.zeroByte

/- ==========================================================================
   Text sanitation, sync_with_remote and save_to_csv
   (src/despachador8.py lines 172-225 and 227-300)
   ========================================================================== -/

/-- The regex substitution of despachador8.py line 270: re.sub with the
ordered alternation CRLF, LF, CR, each single occurrence replaced by one
space, scanning left to right. -/
def cleanChars : List Char → List Char
| [] => []
| '\r' :: '\n' :: rest => ' ' :: cleanChars rest
| '\r' :: rest => ' ' :: cleanChars rest
| '\n' :: rest => ' ' :: cleanChars rest
| c :: rest => c :: cleanChars rest

/-- The Python str.strip whitespace class: space, tab, newline, carriage
return, vertical tab, form feed. -/
def pyWhitespace (c : Char) : Bool :=
  c = ' ' || c = '\t' || c = '\n' || c = '\r' ||
    c = Char.ofNat 11 || c = Char.ofNat 12

def dropLeadingWs : List Char → List Char
| [] => []
| c :: cs => if pyWhitespace c then dropLeadingWs cs else c :: cs

/-- Python str.strip: drop whitespace from both ends. -/
def pyStrip (l : List Char) : List Char :=
  (dropLeadingWs (dropLeadingWs l).reverse).reverse

/-- The per-cell sanitation of despachador8.py line 270:
.str.replace(CRLF-or-LF-or-CR, one space, regex) followed by .str.strip(). -/
def clean (s : String) : String :=
  String.mk (pyStrip (cleanChars s.toList))

/-- Line 268-270 applied to the new record: every column of the one-row frame
built from the submission dict has object dtype, so every field is cleaned. -/
def cleanRow (r : Row) : Row :=
  { timestamp := clean r.timestamp,
    id_paciente := clean r.id_paciente,
    nombre_paciente := clean r.nombre_paciente,
    presion_arterial := clean r.presion_arterial,
    temperatura := clean r.temperatura,
    oximetria := clean r.oximetria,
    estado := clean r.estado }

/-- Written from the words of the claim, for refinement comparison with
clean: every maximal run of newline and carriage-return characters collapses
to a single space, after which the field is trimmed.  The flag records
whether the previous character belonged to such a run. -/
def collapseRunAux : Bool → List Char → List Char
| _, [] => []
| inRun, c :: cs =>
  if c = '\n' || c = '\r' then
    if inRun then collapseRunAux true cs
    else ' ' :: collapseRunAux true cs
  else c :: collapseRunAux false cs

/-- The sanitation the claim describes: newline runs collapsed to one space,
then trimmed. -/
def claimedClean (s : String) : String :=
  String.mk (pyStrip (collapseRunAux false s.toList))

/-- File-system operations performed on the ledger artifact by despachador8.py.
writeFile is a direct pandas to_csv call on the named path; writeTemp and
renameInto never occur in the source and exist so that write-temp-then-replace
can be stated and refuted; uploadLedger is the upload_remote_file call. -/
inductive FsOp
| writeFile (path : String)
| writeTemp (path : String)
| renameInto (tmp dst : String)
| uploadLedger
deriving DecidableEq

/-- True of the operations the source actually performs. -/
def FsOp.isDirectWrite : FsOp → Bool
| FsOp.writeFile _ => true
| FsOp.uploadLedger => true
| _ => false

/-- Reading the existing ledger inside save_to_csv (lines 240-262): a missing
file yields the empty frame; a parsed file keeps only rows whose estado is
not X (line 251); EmptyDataError and ParserError are caught and yield the
empty frame. -/
def readExistingRows : CsvFile → List Row
| CsvFile.rows rs => rs.filter (fun r => r.estado ≠ "X")
| _ => []

/-- The transport-failure repair branch of sync_with_remote (lines 181-202):
if no local ledger exists, a canonical empty one is written; if it exists but
reads empty or raises (the bare except on line 199), it is rewritten as the
canonical empty ledger; a non-empty local ledger is kept.  Returns the
resulting local content and the writes performed. -/
def syncFailBranch : CsvFile → CsvFile × List FsOp
| CsvFile.missing => (CsvFile.rows [], [FsOp.writeFile "signos.csv"])
| CsvFile.rows rs =>
  if rs = [] then (CsvFile.rows [], [FsOp.writeFile "signos.csv"])
  else (CsvFile.rows rs, [])
| CsvFile.zeroByte => (CsvFile.rows [], [FsOp.writeFile "signos.csv"])
| CsvFile.malformed => (CsvFile.rows [], [FsOp.writeFile "signos.csv"])

/-- The post-download check of sync_with_remote (lines 204-220): a file that
parses, even to zero rows, only triggers a warning and the function returns
True; a zero-byte file raises EmptyDataError, is rewritten as the canonical
empty ledger, and the function returns False; a ParserError is not caught by
the EmptyDataError clause, escapes to the outer handler (line 222), and the
function returns False with no rewrite; likewise a vanished local file. -/
def syncOkBranch : CsvFile → Bool × CsvFile × List FsOp
| CsvFile.rows rs => (true, CsvFile.rows rs, [])
| CsvFile.zeroByte => (false, CsvFile.rows [], [FsOp.writeFile "signos.csv"])
| CsvFile.malformed => (false, CsvFile.malformed, [])
| CsvFile.missing => (false, CsvFile.missing, [])

/-- sync_with_remote of despachador8.py (lines 172-225): download the remote
ledger over the local path, then branch on the download result.  Note that
this function only ever downloads; it contains no upload call. -/
def sync_with_remote (net : DlNet) (st : Store) : Bool × Store × List FsOp :=
  let d := applyDownload net st
  if d.1 = false then
    let r := syncFailBranch d.2.1.localFile
    (false, { d.2.1 with localFile := r.1 }, r.2)
  else
    let r := syncOkBranch d.2.1.localFile
    (r.1, { d.2.1 with localFile := r.2.1 }, r.2.2)

/-- save_to_csv of despachador8.py (lines 227-300): sync first (its result
only selects a warning), read the existing ledger dropping estado X rows,
sanitize the new record, append it, rewrite the local ledger with a single
direct to_csv call (line 284), then try the remote upload; on upload success
the remote holds the combined ledger and the function returns True, otherwise
the record stays only in the local file and the function returns False.  The
upOk oracle is the boolean outcome of the upload_remote_file call. -/
def save_to_csv (data : Row) (net : DlNet) (upOk : Bool) (st : Store) :
    Bool × Store × List FsOp :=
  let s1 := sync_with_remote net st
  let combined := readExistingRows s1.2.1.localFile ++ [cleanRow data]
  let st2 := { s1.2.1 with localFile := CsvFile.rows combined }
  let ops := s1.2.2 ++ [FsOp.writeFile "signos.csv"]
  if upOk then
    (true, { st2 with remoteFile := CsvFile.rows combined },
      ops ++ [FsOp.uploadLedger])
  else (false, st2, ops)

/-- Every operation the transport-failure repair branch performs is a direct
write. -/
theorem syncFailBranch_direct (f : CsvFile) :
    ((syncFailBranch f).2).all FsOp.isDirectWrite = true := by
  cases f with
  | rows rs =>
    by_cases h : rs = [] <;> simp [syncFailBranch, h, FsOp.isDirectWrite]
  | missing => simp [syncFailBranch, FsOp.isDirectWrite]
  | zeroByte => simp [syncFailBranch, FsOp.isDirectWrite]
  | malformed => simp [syncFailBranch, FsOp.isDirectWrite]

/-- Every operation the post-download branch performs is a direct write. -/
theorem syncOkBranch_direct (f : CsvFile) :
    ((syncOkBranch f).2.2).all FsOp.isDirectWrite = true := by
  cases f <;> simp [syncOkBranch, FsOp.isDirectWrite]

/-- Every file operation of sync_with_remote is a direct write; in
particular sync_with_remote never uploads the local ledger. -/
theorem sync_with_remote_direct (net : DlNet) (st : Store) :
    ((sync_with_remote net st).2.2).all FsOp.isDirectWrite = true := by
  rw [sync_with_remote]
  by_cases h : (applyDownload net st).1 = false
  · simp only [h, if_true]
    exact syncFailBranch_direct _
  · simp only [h, if_false]
    exact syncOkBranch_direct _

/-- The transport-failure repair branch never uploads. -/
theorem syncFailBranch_no_upload (f : CsvFile) :
    FsOp.uploadLedger ∉ (syncFailBranch f).2 := by
  cases f with
  | rows rs => by_cases h : rs = [] <;> simp [syncFailBranch, h]
  | missing => simp [syncFailBranch]
  | zeroByte => simp [syncFailBranch]
  | malformed => simp [syncFailBranch]

/-- The post-download branch never uploads. -/
theorem syncOkBranch_no_upload (f : CsvFile) :
    FsOp.uploadLedger ∉ (syncOkBranch f).2.2 := by
  cases f <;> simp [syncOkBranch]

/-- sync_with_remote performs no upload on any path: it only brings the
remote ledger down and repairs the local copy. -/
theorem sync_with_remote_no_upload (net : DlNet) (st : Store) :
    FsOp.uploadLedger ∉ (sync_with_remote net st).2.2 := by
  rw [sync_with_remote]
  by_cases h : (applyDownload net st).1 = false
  · simp only [h, if_true]
    exact syncFailBranch_no_upload _
  · simp only [h, if_false]
    exact syncOkBranch_no_upload _

/-- Python str.isdigit combined with the length test of despachador8.py
line 432 (ASCII digits; the submission field is a phone number). -/
def isdigit (s : String) : Bool :=
  s.length != 0 && s.toList.all Char.isDigit

/-- The form-submission handler of despachador8.py main (lines 430-447):
an id_paciente that is not exactly 10 digits, or any empty required field,
is rejected with an error message before any file or network operation;
otherwise the record is built with estado A and handed to save_to_csv. -/
def main_submit (id nombre presion temperatura oximetria ts : String)
    (net : DlNet) (upOk : Bool) (st : Store) : Bool × Store × List FsOp :=
  if (isdigit id && id.length == 10) = false then (false, st, [])
  else if nombre == "" || presion == "" || temperatura == "" || oximetria == ""
    then (false, st, [])
  else
    save_to_csv
      { timestamp := ts, id_paciente := id, nombre_paciente := nombre,
        presion_arterial := presion, temperatura := temperatura,
        oximetria := oximetria, estado := "A" } net upOk st

def rowA : Row :=
  { timestamp := "2024-01-01 10:00", id_paciente := "5512345678",
    nombre_paciente := "Ana Torres", presion_arterial := "120/80",
    temperatura := "36.5", oximetria := "97", estado := "A" }

def rowB : Row :=
  { timestamp := "2024-01-02 09:30", id_paciente := "5598765432",
    nombre_paciente := "Luis Vega", presion_arterial := "130/85",
    temperatura := "37.1", oximetria := "95", estado := "A" }

/-- Claim C4: validation failure rejects before any I/O; an upload success is
the only committed outcome and makes the remote hold the combined ledger; an
upload failure leaves the record only in the local ledger (local ahead of
remote).  But the promised retry at the next synchronization pass does not
exist: sync_with_remote never uploads, and its download overwrites the local
ledger with the remote copy, so the concrete record rowB saved while the
upload failed is discarded by the very next sync (the code itself prints that
the data will be uploaded on the next synchronization). -/
theorem C4_record_writer_outcomes :
    (∀ (id nombre presion temperatura oximetria ts : String) (net : DlNet)
        (upOk : Bool) (st : Store),
      (isdigit id && id.length == 10) = false →
      main_submit id nombre presion temperatura oximetria ts net upOk st =
        (false, st, [])) ∧
    (∀ (data : Row) (net : DlNet) (st : Store), ∃ rs : List Row,
      save_to_csv data net true st =
        ((save_to_csv data net true st).1,
          { localFile := CsvFile.rows rs, remoteFile := CsvFile.rows rs },
          (save_to_csv data net true st).2.2) ∧
      (save_to_csv data net true st).1 = true) ∧
    ((save_to_csv rowB netAll false
        { localFile := CsvFile.rows [rowA], remoteFile := CsvFile.rows [rowA] }).1 =
          false ∧
      (save_to_csv rowB netAll false
        { localFile := CsvFile.rows [rowA], remoteFile := CsvFile.rows [rowA] }).2.1 =
        { localFile := CsvFile.rows [rowA, rowB],
          remoteFile := CsvFile.rows [rowA] } ∧
      sync_with_remote netAll
        (save_to_csv rowB netAll false
          { localFile := CsvFile.rows [rowA], remoteFile := CsvFile.rows [rowA] }).2.1 =
        (true,
          { localFile := CsvFile.rows [rowA], remoteFile := CsvFile.rows [rowA] },
          [])) ∧
    (∀ (net : DlNet) (st : Store),
      FsOp.uploadLedger ∉ (sync_with_remote net st).2.2) := by
  refine ⟨?_, ?_, ⟨by decide, by decide, by decide⟩, sync_with_remote_no_upload⟩
  · intro id nombre presion temperatura oximetria ts net upOk st h
    simp [main_submit, h]
  · intro data net st
    refine ⟨readExistingRows (sync_with_remote net st).2.1.localFile ++
      [cleanRow data], ?_, rfl⟩
    rfl

/-- Claim C4 theorem, witness: a 9-digit identifier is rejected with no I/O,
shown by applying the theorem at concrete inputs. -/
theorem C4_record_writer_outcomes_witness :
    main_submit "551234567" "Ana" "120/80" "36.5" "97" "2024-01-01 10:00"
      netAll true { localFile := CsvFile.rows [], remoteFile := CsvFile.rows [] } =
      (false, { localFile := CsvFile.rows [], remoteFile := CsvFile.rows [] }, []) :=
  C4_record_writer_outcomes.1 "551234567" "Ana" "120/80" "36.5" "97"
    "2024-01-01 10:00" netAll true _ (by decide)

/-- The regex substitution leaves a string without newline or carriage-return
characters unchanged. -/
theorem cleanChars_id : ∀ l : List Char,
    (∀ c ∈ l, c ≠ '\n' ∧ c ≠ '\r') → cleanChars l = l := by
  intro l
  induction l with
  | nil => intro _; rfl
  | cons c cs ih =>
    intro h
    obtain ⟨hn, hr⟩ := h c (List.mem_cons_self c cs)
    have h2 : ∀ x ∈ cs, x ≠ '\n' ∧ x ≠ '\r' :=
      fun x hx => h x (List.mem_cons_of_mem c hx)
    cases cs with
    | nil => simp [cleanChars, hn, hr]
    | cons c2 cs2 => simp [cleanChars, hn, hr, ih h2]

def rowNewline : Row :=
  { timestamp := "2024-01-02 09:30", id_paciente := "5598765432",
    nombre_paciente := "a\n\nb", presion_arterial := "130/85",
    temperatura := "37.1", oximetria := "95", estado := "A" }

/-- Claim C5, counterexample: appending a record whose free-text name field
is "a", two newlines, "b" stores the name as "a", two spaces, "b" - the
substitution of line 270 replaces each newline occurrence by its own space -
while the claimed collapse of every newline sequence to a single space would
give "a", one space, "b".  The ledger row produced by save_to_csv therefore
differs from the record the claim predicts. -/
theorem C5_counterexample :
    (save_to_csv rowNewline netAll true
      { localFile := CsvFile.rows [], remoteFile := CsvFile.rows [] }).2.1.localFile =
      CsvFile.rows
        [{ timestamp := "2024-01-02 09:30", id_paciente := "5598765432",
           nombre_paciente := "a  b", presion_arterial := "130/85",
           temperatura := "37.1", oximetria := "95", estado := "A" }] ∧
    claimedClean "a\n\nb" = "a b" ∧
    clean "a\n\nb" ≠ claimedClean "a\n\nb" := by
  refine ⟨by decide, by decide, by decide⟩

/-- Claim C5 (amended): append followed by a load of the local ledger
reproduces the record as its sanitized image: the ledger after save_to_csv
always ends with cleanRow applied to the submitted record, where clean
replaces each CRLF pair and each lone newline or carriage return by one space
(so a run of k bare newlines becomes k spaces) and trims the field; a field
with no newline characters and no surrounding whitespace is reproduced
exactly.  The sanitation applies to every column of the new record, not only
free-text ones. -/
theorem C5_amended_append_then_load :
    (∀ (data : Row) (net : DlNet) (upOk : Bool) (st : Store),
      ∃ prior : List Row,
        (save_to_csv data net upOk st).2.1.localFile =
          CsvFile.rows (prior ++ [cleanRow data])) ∧
    (∀ s : String, (∀ c ∈ s.toList, c ≠ '\n' ∧ c ≠ '\r') →
      dropLeadingWs s.toList = s.toList →
      dropLeadingWs s.toList.reverse = s.toList.reverse →
      clean s = s) := by
  constructor
  · intro data net upOk st
    refine ⟨readExistingRows (sync_with_remote net st).2.1.localFile, ?_⟩
    cases upOk <;> rfl
  · intro s h h1 h2
    have hc : cleanChars s.toList = s.toList := cleanChars_id _ h
    rw [clean, hc, pyStrip, h1, h2, List.reverse_reverse]
    cases s
    rfl

/-- Claim C5 amended theorem, witness at a concrete field value. -/
theorem C5_amended_append_then_load_witness :
    clean "Ana Torres" = "Ana Torres" :=
  C5_amended_append_then_load.2 "Ana Torres" (by decide) (by decide) (by decide)

/-- Claim C7, counterexample: a concrete append run.  The complete trace of
ledger file operations is one direct to_csv write to the final path followed
by the upload; there is no temporary-file write and no rename/replace, so the
rewrite is not write-temp-then-replace. -/
theorem C7_counterexample :
    (save_to_csv rowB netAll true
      { localFile := CsvFile.rows [rowA], remoteFile := CsvFile.rows [rowA] }).2.2 =
      [FsOp.writeFile "signos.csv", FsOp.uploadLedger] ∧
    ((save_to_csv rowB netAll true
      { localFile := CsvFile.rows [rowA], remoteFile := CsvFile.rows [rowA] }).2.2).all
        FsOp.isDirectWrite = true := by
  refine ⟨by decide, by decide⟩

/-- Claim C7 (amended): every rewrite of the ledger artifact in save_to_csv
(and in the repair branches of sync_with_remote it calls) is a single direct
pandas to_csv write to the final path signos.csv; no temporary file and no
rename/replace step exists, so no atomicity against concurrent readers is
provided. -/
theorem C7_amended_direct_rewrite :
    ∀ (data : Row) (net : DlNet) (upOk : Bool) (st : Store),
      ((save_to_csv data net upOk st).2.2).all FsOp.isDirectWrite = true ∧
      FsOp.writeFile "signos.csv" ∈ (save_to_csv data net upOk st).2.2 := by
  intro data net upOk st
  cases upOk with
  | false =>
    constructor
    · simp [save_to_csv, List.all_append, sync_with_remote_direct net st,
        FsOp.isDirectWrite]
    · simp [save_to_csv]
  | true =>
    constructor
    · simp [save_to_csv, List.all_append, sync_with_remote_direct net st,
        FsOp.isDirectWrite]
    · simp [save_to_csv]

/-- Claim C8, counterexample: the remote ledger parses but holds zero rows.
sync_with_remote downloads it, sees an empty frame, prints only a warning,
and returns True with no reinitialization write - not the claimed degraded
outcome with a reinitialized canonical ledger. -/
theorem C8_counterexample :
    sync_with_remote netAll
      { localFile := CsvFile.rows [rowA], remoteFile := CsvFile.rows [] } =
      (true,
        { localFile := CsvFile.rows [], remoteFile := CsvFile.rows [] }, []) := by
  decide

/-- Claim C8 (amended): after a successful download, only a zero-byte ledger
(EmptyDataError) is treated as corrupt: the local copy is reinitialized to
the empty canonical ledger and the sync reports a degraded outcome (False).
A ledger that parses to zero rows yields a successful outcome (True) with no
reinitialization, and a ledger that fails to parse (ParserError) escapes the
EmptyDataError handler, reaching the outer handler: degraded outcome with no
reinitialization. -/
theorem C8_amended_corrupt_download_handling :
    (∀ pre : CsvFile,
      sync_with_remote netAll { localFile := pre, remoteFile := CsvFile.zeroByte } =
        (false,
          { localFile := CsvFile.rows [], remoteFile := CsvFile.zeroByte },
          [FsOp.writeFile "signos.csv"])) ∧
    (∀ (pre : CsvFile) (rs : List Row),
      sync_with_remote netAll { localFile := pre, remoteFile := CsvFile.rows rs } =
        (true,
          { localFile := CsvFile.rows rs, remoteFile := CsvFile.rows rs }, [])) ∧
    (∀ pre : CsvFile,
      sync_with_remote netAll { localFile := pre, remoteFile := CsvFile.malformed } =
        (false,
          { localFile := CsvFile.malformed, remoteFile := CsvFile.malformed },
          [])) := by
  refine ⟨fun pre => rfl, fun pre rs => rfl, fun pre => rfl⟩

/- ==========================================================================
   Column-level ledger loading: back-fill in save_to_csv
   (src/despachador8.py lines 244-262, 276-281) and the required-columns
   check of load_data (src/enfermera15.py lines 259-267)
   ========================================================================== -/

/-- The canonical signos.csv schema (despachador8.py lines 234-238,
enfermera15.py lines 260-261). -/
def canonicalColumns : List String :=
  ["timestamp", "id_paciente", "nombre_paciente", "presion_arterial",
   "temperatura", "oximetria", "estado"]

/-- A CSV artifact as parsed: its header and its rows of cells, matched
positionally to the header. -/
structure RawTable where
  cols : List String
  cells : List (List String)
deriving DecidableEq

/-- The value of a named column in one row; absent columns read as the empty
string, which is exactly what the back-fill assignment of an empty-string
column produces. -/
def colValue : List String → List String → String → String
| [], _, _ => ""
| _ :: _, [], _ => ""
| c :: cs, v :: vs, target => if c = target then v else colValue cs vs target

/-- A canonical row assembled from a raw row: present columns keep their
cell, absent canonical columns are back-filled with the empty string. -/
def rowFromRaw (cols : List String) (cells : List String) : Row :=
  { timestamp := colValue cols cells "timestamp",
    id_paciente := colValue cols cells "id_paciente",
    nombre_paciente := colValue cols cells "nombre_paciente",
    presion_arterial := colValue cols cells "presion_arterial",
    temperatura := colValue cols cells "temperatura",
    oximetria := colValue cols cells "oximetria",
    estado := colValue cols cells "estado" }

/-- Field selection on a canonical row by column name. -/
def rowField (r : Row) : String → String
| "timestamp" => r.timestamp
| "id_paciente" => r.id_paciente
| "nombre_paciente" => r.nombre_paciente
| "presion_arterial" => r.presion_arterial
| "temperatura" => r.temperatura
| "oximetria" => r.oximetria
| "estado" => r.estado
| _ => ""

/-- Result of the existing-ledger read inside save_to_csv. -/
inductive ReadExisting
| ok (rs : List Row)
| keyError
deriving DecidableEq

/-- The existing-ledger read of save_to_csv at column level (despachador8.py
lines 244-262 and 276-281): the estado filter of line 251 runs before the
back-fill of lines 256-260, so an artifact with no estado column raises
KeyError, which only the outer handler of line 297 catches (save_to_csv then
returns False without back-filling); with estado present, rows with estado X
are dropped and every absent canonical column reads back as the empty
string. -/
def read_existing_raw (t : RawTable) : ReadExisting :=
  if "estado" ∈ t.cols then
    ReadExisting.ok
      ((t.cells.filter (fun r => colValue t.cols r "estado" ≠ "X")).map
        (rowFromRaw t.cols))
  else ReadExisting.keyError

/-- The required-columns check of enfermera15.py load_data (lines 259-267):
if any canonical column is absent, the function reports an error and returns
an empty frame, dropping every row; otherwise the rows continue to the
timestamp-normalization stage (which may drop rows with unparseable
timestamps and sorts by timestamp descending; this definition returns the
rows entering that stage). -/
def load_data_columns_stage (t : RawTable) : List Row :=
  if ∀ c ∈ canonicalColumns, c ∈ t.cols then t.cells.map (rowFromRaw t.cols)
  else []

/-- Looking up a column that the header does not contain yields the empty
string. -/
theorem colValue_not_mem :
    ∀ (cols vals : List String) (c : String), c ∉ cols →
      colValue cols vals c = "" := by
  intro cols
  induction cols with
  | nil => intro vals c _; cases vals <;> rfl
  | cons c0 cs ih =>
    intro vals c h
    cases vals with
    | nil => rfl
    | cons v vs =>
      have h0 : c0 ≠ c := fun e => h (e ▸ List.mem_cons_self c0 cs)
      simp [colValue, h0]
      exact ih vs c (fun hm => h (List.mem_cons_of_mem c0 hm))

/-- On canonical column names, field selection after assembly is column
lookup. -/
theorem rowField_rowFromRaw (cols cells : List String) (c : String)
    (hc : c ∈ canonicalColumns) :
    rowField (rowFromRaw cols cells) c = colValue cols cells c := by
  simp only [canonicalColumns, List.mem_cons, List.mem_singleton] at hc
  rcases hc with rfl | rfl | rfl | rfl | rfl | rfl | rfl | h
  · rfl
  · rfl
  · rfl
  · rfl
  · rfl
  · rfl
  · rfl
  · cases h

def tableNoEstado : RawTable :=
  { cols := ["timestamp", "id_paciente", "nombre_paciente", "presion_arterial",
             "temperatura", "oximetria"],
    cells := [["2024-01-01 10:00", "5512345678", "Ana Torres", "120/80",
               "36.5", "97"]] }

/-- Claim C6, counterexample: a ledger artifact missing the known canonical
column estado, holding one row.  enfermera15.py load_data does not back-fill
it: the required-columns check fails and every row is dropped; and
despachador8.py save_to_csv raises KeyError at the estado filter before its
back-fill code can run.  Neither load returns the rows with the column
back-filled. -/
theorem C6_counterexample :
    load_data_columns_stage tableNoEstado = [] ∧
    tableNoEstado.cells.length = 1 ∧
    read_existing_raw tableNoEstado = ReadExisting.keyError := by
  refine ⟨by decide, by decide, by decide⟩

/-- Claim C6 (amended): only the existing-ledger read inside despachador8.py
save_to_csv back-fills, and only when the missing column is not estado: with
estado present, every absent canonical column reads back as the empty string
in every returned row.  An artifact without estado makes that read raise
KeyError instead of back-filling, and enfermera15.py load_data never
back-fills: any absent canonical column makes it return an empty table,
dropping all rows. -/
theorem C6_amended_backfill :
    (∀ (t : RawTable) (c : String), "estado" ∈ t.cols →
      c ∈ canonicalColumns → c ∉ t.cols →
      ∃ rs : List Row, read_existing_raw t = ReadExisting.ok rs ∧
        ∀ r ∈ rs, rowField r c = "") ∧
    (∀ t : RawTable, "estado" ∉ t.cols →
      read_existing_raw t = ReadExisting.keyError) ∧
    (∀ (t : RawTable) (c : String), c ∈ canonicalColumns → c ∉ t.cols →
      load_data_columns_stage t = []) := by
  refine ⟨?_, ?_, ?_⟩
  · intro t c hest hc hnot
    refine ⟨(t.cells.filter (fun r => colValue t.cols r "estado" ≠ "X")).map
      (rowFromRaw t.cols), by simp [read_existing_raw, hest], ?_⟩
    intro r hr
    rcases List.mem_map.mp hr with ⟨cell, _, rfl⟩
    rw [rowField_rowFromRaw _ _ _ hc, colValue_not_mem _ _ _ hnot]
  · intro t hest
    simp [read_existing_raw, hest]
  · intro t c hc hnot
    have : ¬ ∀ x ∈ canonicalColumns, x ∈ t.cols := fun h => hnot (h c hc)
    simp [load_data_columns_stage, this]

def tableNoOxi : RawTable :=
  { cols := ["timestamp", "id_paciente", "nombre_paciente", "presion_arterial",
             "temperatura", "estado"],
    cells := [["2024-01-01 10:00", "5512345678", "Ana Torres", "120/80",
               "36.5", "A"]] }

/-- Claim C6 amended theorem, witness: an artifact missing oximetria is read
by the save path with that column back-filled empty in every row. -/
theorem C6_amended_backfill_witness :
    ∃ rs : List Row, read_existing_raw tableNoOxi = ReadExisting.ok rs ∧
      ∀ r ∈ rs, rowField r "oximetria" = "" :=
  C6_amended_backfill.1 tableNoOxi "oximetria" (by decide) (by decide)
    (by decide)

/- ==========================================================================
   LedgerStore.setNotified - not present under src/
   ========================================================================== -/

/-- A ledger row as the notification layer sees it: the patient identifier,
the notified flag, and the remaining cells abstracted as an opaque payload. -/
structure NRow where
  id_paciente : String
  notified : Nat
  payload : String
deriving DecidableEq

/-- Modelled from the spec: the LedgerStore operation setNotified(patientId)
of spec section 4.4 is missing from the files under src/ (neither
despachador8.py nor enfermera15.py has a notified column or a function
writing it).  Per the spec it sets the notified flag to 1 for every row
belonging to the given patient - the notification unit is the patient - and
touches no other row. -/
def setNotified (pid : String) (rows : List NRow) : List NRow :=
  rows.map (fun r =>
    if r.id_paciente = pid then { r with notified := 1 } else r)

/-- Claim C9: setNotified(patientId) relates the ledger to its image row by
row: every row keeps its patient identifier and payload, every row of the
given patient has notified set to 1 in the image, every row of any other
patient is unchanged, and the operation is idempotent. -/
theorem C9_setNotified_per_patient :
    (∀ (pid : String) (rows : List NRow),
      List.Forall₂ (fun r0 r1 =>
        r1.id_paciente = r0.id_paciente ∧ r1.payload = r0.payload ∧
        (r0.id_paciente = pid → r1.notified = 1) ∧
        (r0.id_paciente ≠ pid → r1 = r0)) rows (setNotified pid rows)) ∧
    (∀ (pid : String) (rows : List NRow),
      setNotified pid (setNotified pid rows) = setNotified pid rows) := by
  constructor
  · intro pid rows
    induction rows with
    | nil => exact List.Forall₂.nil
    | cons r rs ih =>
      refine List.Forall₂.cons ?_ ih
      by_cases h : r.id_paciente = pid
      · simp [h]
      · simp [h]
  · intro pid rows
    induction rows with
    | nil => rfl
    | cons r rs ih =>
      by_cases h : r.id_paciente = pid
      · simp [setNotified, h] at ih ⊢
        exact ih
      · simp [setNotified, h] at ih ⊢
        exact ih

/-- Claim C9 theorem, witness: the rowwise relation instantiated on a
concrete two-patient ledger. -/
theorem C9_setNotified_per_patient_witness :
    List.Forall₂ (fun r0 r1 =>
      r1.id_paciente = r0.id_paciente ∧ r1.payload = r0.payload ∧
      (r0.id_paciente = "5512345678" → r1.notified = 1) ∧
      (r0.id_paciente ≠ "5512345678" → r1 = r0))
      [{ id_paciente := "5512345678", notified := 0, payload := "x" },
       { id_paciente := "5598765432", notified := 0, payload := "y" }]
      (setNotified "5512345678"
        [{ id_paciente := "5512345678", notified := 0, payload := "x" },
         { id_paciente := "5598765432", notified := 0, payload := "y" }]) :=
  C9_setNotified_per_patient.1 "5512345678" _

/- ==========================================================================
   SSHManager.get_all_ecgs (src/enfermera15.py lines 159-230)
   ========================================================================== -/

/-- Python string comparison: lexicographic by code point. -/
def strLtChars : List Char → List Char → Bool
| [], [] => false
| [], _ :: _ => true
| _ :: _, [] => false
| a :: as, b :: bs => if a < b then true else if b < a then false else strLtChars as bs

theorem strLtChars_irrefl : ∀ l : List Char, strLtChars l l = false := by
  intro l
  induction l with
  | nil => rfl
  | cons c cs ih => simp [strLtChars, lt_irrefl, ih]

theorem strLtChars_trans : ∀ a b c : List Char,
    strLtChars a b = true → strLtChars b c = true → strLtChars a c = true := by
  intro a
  induction a with
  | nil =>
    intro b c hab hbc
    cases c with
    | nil =>
      cases b with
      | nil => exact absurd hab (by simp [strLtChars])
      | cons bh bt => exact absurd hbc (by simp [strLtChars])
    | cons ch ct => rfl
  | cons a0 as0 ih =>
    intro b c hab hbc
    cases b with
    | nil => exact absurd hab (by simp [strLtChars])
    | cons b0 bs0 =>
      cases c with
      | nil => exact absurd hbc (by simp [strLtChars])
      | cons c0 cs0 =>
        rcases lt_trichotomy a0 b0 with h1 | h1 | h1
        · rcases lt_trichotomy b0 c0 with h2 | h2 | h2
          · simp [strLtChars, lt_trans h1 h2]
          · subst h2; simp [strLtChars, h1]
          · rw [strLtChars] at hbc
            rw [if_neg (lt_asymm h2), if_pos h2] at hbc
            exact absurd hbc (by simp)
        · subst h1
          rw [strLtChars, if_neg (lt_irrefl a0), if_neg (lt_irrefl a0)] at hab
          rcases lt_trichotomy a0 c0 with h2 | h2 | h2
          · simp [strLtChars, h2]
          · subst h2
            rw [strLtChars, if_neg (lt_irrefl a0), if_neg (lt_irrefl a0)] at hbc ⊢
            exact ih bs0 cs0 hab hbc
          · rw [strLtChars] at hbc
            rw [if_neg (lt_asymm h2), if_pos h2] at hbc
            exact absurd hbc (by simp)
        · rw [strLtChars] at hab
          rw [if_neg (lt_asymm h1), if_pos h1] at hab
          exact absurd hab (by simp)

theorem strLtChars_asymm (a b : List Char) (h : strLtChars a b = true) :
    strLtChars b a = false := by
  by_contra hc
  have hba : strLtChars b a = true := by
    revert hc; cases strLtChars b a <;> simp
  have hloop := strLtChars_trans a b a h hba
  rw [strLtChars_irrefl] at hloop
  exact Bool.false_ne_true hloop

/-- The descending-order relation the sorted ECG list satisfies: the earlier
name is not below the later one in code-point order. -/
def geStr (a b : String) : Prop := strLtChars a.toList b.toList = false

def prefixOf : List Char → List Char → Bool
| [], _ => true
| _ :: _, [] => false
| a :: as, b :: bs => a == b && prefixOf as bs

/-- Python substring membership: needle in hay. -/
def substrOf (needle : List Char) : List Char → Bool
| [] => needle.isEmpty
| h :: t => prefixOf needle (h :: t) || substrOf needle t

/-- f.lower().endswith of a suffix: compare the reversed lowered name with
the reversed suffix. -/
def endsWithPdf (f : String) : Bool :=
  prefixOf (String.toList ".pdf").reverse ((f.toList.map Char.toLower).reverse)

/-- The filter of enfermera15.py line 181: str(patient_id) in f and
f.lower().endswith of the .pdf suffix. -/
def ecgMatches (pid f : String) : Bool :=
  substrOf pid.toList f.toList && endsWithPdf f

/-- One step of the descending insertion modelling
patient_ecgs.sort(reverse=True). -/
def insertDescBy (x : String) : List String → List String
| [] => [x]
| y :: ys =>
  if strLtChars y.toList x.toList then x :: y :: ys else y :: insertDescBy x ys

/-- patient_ecgs.sort(reverse=True) of enfermera15.py line 189: descending
code-point order on the file names. -/
def sortDesc : List String → List String
| [] => []
| x :: xs => insertDescBy x (sortDesc xs)

theorem insertDescBy_perm (x : String) (l : List String) :
    List.Perm (insertDescBy x l) (x :: l) := by
  induction l with
  | nil => exact List.Perm.refl _
  | cons y ys ih =>
    by_cases h : strLtChars y.toList x.toList = true
    · simp only [insertDescBy, h, if_pos]
      exact List.Perm.refl _
    · simp only [insertDescBy, h, if_neg, Bool.not_eq_true]
      exact List.Perm.trans (List.Perm.cons y ih) (List.Perm.swap x y ys)

theorem sortDesc_perm (l : List String) : List.Perm (sortDesc l) l := by
  induction l with
  | nil => exact List.Perm.refl _
  | cons x xs ih =>
    exact List.Perm.trans (insertDescBy_perm x (sortDesc xs)) (List.Perm.cons x ih)

theorem pairwise_insertDescBy (x : String) (l : List String)
    (h : l.Pairwise geStr) : (insertDescBy x l).Pairwise geStr := by
  induction l with
  | nil => simp [insertDescBy, geStr]
  | cons y ys ih =>
    rw [List.pairwise_cons] at h
    obtain ⟨hy, hys⟩ := h
    by_cases hlt : strLtChars y.toList x.toList = true
    · simp only [insertDescBy, hlt, if_pos]
      rw [List.pairwise_cons]
      refine ⟨?_, ?_⟩
      · intro z hz
        rcases List.mem_cons.mp hz with rfl | hz2
        · exact strLtChars_asymm _ _ hlt
        · have hyz := hy z hz2
          unfold geStr at hyz ⊢
          by_contra hc
          have hxz : strLtChars x.toList z.toList = true := by
            revert hc; cases strLtChars x.toList z.toList <;> simp
          have := strLtChars_trans _ _ _ hlt hxz
          rw [hyz] at this
          exact Bool.false_ne_true this
      · rw [List.pairwise_cons]
        exact ⟨hy, hys⟩
    · simp only [insertDescBy, hlt, if_neg, Bool.not_eq_true]
      rw [List.pairwise_cons]
      refine ⟨?_, ih hys⟩
      intro z hz
      rcases List.mem_cons.mp ((insertDescBy_perm x ys).mem_iff.mp hz)
        with rfl | hz2
      · unfold geStr
        revert hlt; cases strLtChars y.toList z.toList <;> simp
      · exact hy z hz2

theorem sortDesc_pairwise (l : List String) : (sortDesc l).Pairwise geStr := by
  induction l with
  | nil => exact List.Pairwise.nil
  | cons x xs ih => exact pairwise_insertDescBy x (sortDesc xs) ih

/-- SSHManager.get_all_ecgs of enfermera15.py (lines 159-230).  A failed
connection returns None; a missing remote ECG directory returns None through
the FileNotFoundError handler; otherwise the directory listing is filtered
to names containing the patient identifier as a substring with a
case-insensitive .pdf suffix, an empty match set returns None, the matches
are sorted descending (timestamp-prefixed names, newest first), each match
is downloaded with failures skipped (the dlOk oracle), and an empty final
list returns None. -/
def get_all_ecgs (connOk : Bool) (dlOk : String → Bool) (pid : String)
    (dir : Option (List String)) : Option (List String) :=
  if connOk = false then none
  else
    match dir with
    | none => none
    | some files =>
      let hits := files.filter (fun f => ecgMatches pid f)
      if hits = [] then none
      else
        let fetched := (sortDesc hits).filter dlOk
        if fetched = [] then none else some fetched

/-- Claim C10: get_all_ecgs returns None on connection failure, on a missing
ECG directory, and when no listed name both contains the patient identifier
as a substring and carries a case-insensitive .pdf suffix; otherwise (with
downloads succeeding) it returns exactly the matching names - membership in
the result is membership in the directory listing plus the substring and
suffix tests, so a file of a different record whose name merely contains the
digits is also returned - in descending code-point order (newest first under
timestamp-prefixed naming), and the result is never the empty list. -/
theorem C10_get_all_ecgs_selection :
    (∀ (dlOk : String → Bool) (pid : String) (dir : Option (List String)),
      get_all_ecgs false dlOk pid dir = none) ∧
    (∀ (dlOk : String → Bool) (pid : String),
      get_all_ecgs true dlOk pid none = none) ∧
    (∀ (dlOk : String → Bool) (pid : String) (files : List String),
      files.filter (fun f => ecgMatches pid f) = [] →
      get_all_ecgs true dlOk pid (some files) = none) ∧
    (∀ (pid : String) (files l : List String),
      get_all_ecgs true (fun _ => true) pid (some files) = some l →
      (∀ f, f ∈ l ↔ (f ∈ files ∧ ecgMatches pid f = true)) ∧
        l.Pairwise geStr ∧ l ≠ []) ∧
    (∀ (pid : String) (files : List String),
      files.filter (fun f => ecgMatches pid f) ≠ [] →
      ∃ l, get_all_ecgs true (fun _ => true) pid (some files) = some l) := by
  refine ⟨fun _ _ _ => rfl, fun _ _ => rfl, ?_, ?_, ?_⟩
  · intro dlOk pid files h
    simp [get_all_ecgs, h]
  · intro pid files l h
    by_cases hh : files.filter (fun f => ecgMatches pid f) = []
    · simp [get_all_ecgs, hh] at h
    · rw [get_all_ecgs] at h
      simp only [if_neg, hh, List.filter_true, reduceIte] at h
      have hne : sortDesc (files.filter (fun f => ecgMatches pid f)) ≠ [] := by
        intro he
        have hperm := sortDesc_perm (files.filter (fun f => ecgMatches pid f))
        rw [he] at hperm
        exact hh (hperm.nil_eq.symm)
      rw [if_neg hne] at h
      obtain rfl : sortDesc (files.filter (fun f => ecgMatches pid f)) = l :=
        Option.some.inj h
      refine ⟨?_, sortDesc_pairwise _, hne⟩
      intro f
      rw [(sortDesc_perm _).mem_iff, List.mem_filter]
  · intro pid files h
    rw [get_all_ecgs]
    simp only [if_neg, h, List.filter_true, reduceIte]
    have hne : sortDesc (files.filter (fun f => ecgMatches pid f)) ≠ [] := by
      intro he
      have hperm := sortDesc_perm (files.filter (fun f => ecgMatches pid f))
      rw [he] at hperm
      exact h (hperm.nil_eq.symm)
    rw [if_neg hne]
    exact ⟨_, rfl⟩

/-- Claim C10 theorem, witness: a directory with two matching names - one of
them a longer identifier that merely contains the patient digits - and one
non-matching name; the theorem applied at this input yields the membership,
ordering and non-emptiness facts for the concrete result. -/
theorem C10_get_all_ecgs_selection_witness :
    (∀ f, f ∈ ["2024-01-01_5512345678.pdf", "2023-05-05_0055123456789.PDF"] ↔
      (f ∈ ["2023-05-05_0055123456789.PDF", "2024-01-01_5512345678.pdf",
            "2024-02-02_informe.txt"] ∧
        ecgMatches "5512345678" f = true)) ∧
    List.Pairwise geStr
      ["2024-01-01_5512345678.pdf", "2023-05-05_0055123456789.PDF"] ∧
    (["2024-01-01_5512345678.pdf", "2023-05-05_0055123456789.PDF"] :
      List String) ≠ [] :=
  C10_get_all_ecgs_selection.2.2.2.1 "5512345678"
    ["2023-05-05_0055123456789.PDF", "2024-01-01_5512345678.pdf",
     "2024-02-02_informe.txt"]
    ["2024-01-01_5512345678.pdf", "2023-05-05_0055123456789.PDF"]
    (by decide)

/-- Claim C7 amended theorem, witness at a concrete run. -/
theorem C7_amended_direct_rewrite_witness :
    ((save_to_csv rowB netDown false
      { localFile := CsvFile.missing, remoteFile := CsvFile.rows [] }).2.2).all
        FsOp.isDirectWrite = true ∧
    FsOp.writeFile "signos.csv" ∈
      (save_to_csv rowB netDown false
        { localFile := CsvFile.missing, remoteFile := CsvFile.rows [] }).2.2 :=
  C7_amended_direct_rewrite rowB netDown false
    { localFile := CsvFile.missing, remoteFile := CsvFile.rows [] }

/-- Claim C8 amended theorem, witness at a concrete pre-state. -/
theorem C8_amended_corrupt_download_handling_witness :
    sync_with_remote netAll
      { localFile := CsvFile.missing, remoteFile := CsvFile.zeroByte } =
      (false,
        { localFile := CsvFile.rows [], remoteFile := CsvFile.zeroByte },
        [FsOp.writeFile "signos.csv"]) :=
  C8_amended_corrupt_download_handling.1 CsvFile.missing
